import Mathlib

/-!
# Sitronix ST7703 / Jadard JD9365DA panel driver: lifecycle and init sequencing

A shallow embedding of `drivers/gpu/drm/panel/panel-sitronix-st7703.c`.

The driver talks to three external collaborators whose code is not part of the
file: the MIPI-DSI host (generic writes, DCS short commands, DCS reads), the
regulator framework and the GPIO framework.  They are modelled by a `World`
record that carries

* the one mutable driver field, `ctx->prepared`;
* the physical state the driver acts on (both supplies, the reset line);
* a trace of every hardware call the driver makes, oldest first, and a log of
  every `dev_err` / `dev_warn` / `dev_dbg` message;
* for every kind of fallible call a stream with the outcomes of the calls still
  to come (entry `0` is the outcome of the next call of that kind).

The panel framework entry points `drm_panel_unprepare` and `drm_panel_disable`
used by `st7703_shutdown` are modelled as handing the call to the operation the
driver registered in `st7703_drm_funcs`.

Every driver function is a function `World → Int × World`: the C return value
and the world after the call.  The `return` hidden in the macro
`dsi_generic_write_seq` is modelled by passing the rest of the enclosing
function as a continuation.
-/

namespace ST7703

/-! ## Hardware actions and log messages -/

/-- The two supplies of `struct st7703`. -/
inductive Regulator
  | vcc
  | iovcc
  deriving DecidableEq, Repr

/-- One call into the DSI host, the regulator framework, the GPIO framework or
the timer.  The payload of a generic write is its byte array `d[]`. -/
inductive Action
  | regulator_enable (r : Regulator)
  | regulator_disable (r : Regulator)
  | gpiod_set_value (v : Nat)
  | msleep (ms : Nat)
  | generic_write (d : List Nat)
  | dcs_exit_sleep_mode
  | dcs_set_display_on
  | dcs_set_tear_on
  | dcs_set_display_off
  | dcs_enter_sleep_mode
  | dcs_read (cmd : Nat) (len : Nat)
  deriving DecidableEq, Repr

/-- Severity of a log line. -/
inductive Level
  | err
  | warn
  | dbg
  deriving DecidableEq, Repr

/-- The messages the driver prints, with their numeric argument if any. -/
inductive Msg
  | init_entry
  | init_exit
  | rddidif_error
  | id1_error
  | id2_error
  | id3_error
  | id1_value (v : Nat)
  | id2_value (v : Nat)
  | id3_value (v : Nat)
  | init_sequence_failed (ret : Int)
  | exit_sleep_failed (ret : Int)
  | init_sequence_done
  | display_off_failed (ret : Int)
  | enter_sleep_failed (ret : Int)
  | resetting_panel
  | vcc_enable_failed (ret : Int)
  | iovcc_enable_failed (ret : Int)
  | unprepare_failed (ret : Int)
  | disable_failed (ret : Int)
  deriving DecidableEq, Repr

/-! ## The world -/

/-- Driver state, physical state, observation record and pending outcomes. -/
@[ext]
structure World where
  /-- The field `ctx->prepared`. -/
  prepared : Bool
  /-- Whether the `vcc` supply is physically on. -/
  vcc_on : Bool
  /-- Whether the `iovcc` supply is physically on. -/
  iovcc_on : Bool
  /-- Logical value currently driven on the reset line. -/
  reset_line : Nat
  /-- Every hardware call made so far, oldest first. -/
  trace : List Action
  /-- Every message logged so far, oldest first. -/
  log : List (Level × Msg)
  /-- Return values of the coming `mipi_dsi_generic_write` calls. -/
  gw : Nat → Int
  /-- Return values of the coming DCS short commands. -/
  dcs : Nat → Int
  /-- Return value and received bytes of the coming `mipi_dsi_dcs_read` calls. -/
  rd : Nat → Int × List Nat
  /-- Return values of the coming `regulator_enable` calls, per supply. -/
  en : Regulator → Nat → Int
  /-- Return values of the coming `regulator_disable` calls, per supply. -/
  dis : Regulator → Nat → Int
  /-- Whether the coming `gpiod_set_value_cansleep` calls reach the line. -/
  gpio_ok : Nat → Bool

/-- Drop the outcome that was just consumed. -/
def next {α : Type} (s : Nat → α) : Nat → α := fun n => s (n + 1)

/-- The assignment `ctx->prepared = b`. -/
@[simps]
def set_prepared (b : Bool) (w : World) : World :=
  { w with prepared := b }

/-- Kernel `dev_err`. -/
@[simps]
def dev_err (m : Msg) (w : World) : World :=
  { w with log := w.log ++ [(Level.err, m)] }

/-- Kernel `dev_warn`. -/
@[simps]
def dev_warn (m : Msg) (w : World) : World :=
  { w with log := w.log ++ [(Level.warn, m)] }

/-- Kernel `dev_dbg`. -/
@[simps]
def dev_dbg (m : Msg) (w : World) : World :=
  { w with log := w.log ++ [(Level.dbg, m)] }

/-! ## External collaborators

Every call appends itself to the trace and consumes one outcome of its kind. -/

/-- Kernel `msleep`: a blocking delay, cannot fail. -/
@[simps]
def msleep (ms : Nat) (w : World) : World :=
  { w with trace := w.trace ++ [Action.msleep ms] }

/-- Kernel `gpiod_set_value_cansleep` on `ctx->reset_gpio`: returns nothing, so a
write that does not reach the line is invisible to the driver. -/
@[simps]
def gpiod_set_value_cansleep (v : Nat) (w : World) : World :=
  { w with
    trace := w.trace ++ [Action.gpiod_set_value v]
    reset_line := if w.gpio_ok 0 then v else w.reset_line
    gpio_ok := next w.gpio_ok }

/-- The supply state after a regulator call that returned `ret` and that would
set the supply to `target`: a call that fails (negative return) changes
nothing. -/
def supply_after (ret : Int) (target : Bool) (old : Bool) : Bool :=
  if ret < 0 then old else target

/-- Kernel `regulator_enable`: `0` on success, a negative errno on failure. -/
@[simps]
def regulator_enable (r : Regulator) (w : World) : Int × World :=
  (w.en r 0,
   { w with
     trace := w.trace ++ [Action.regulator_enable r]
     vcc_on := if r = Regulator.vcc then supply_after (w.en r 0) true w.vcc_on else w.vcc_on
     iovcc_on :=
       if r = Regulator.iovcc then supply_after (w.en r 0) true w.iovcc_on else w.iovcc_on
     en := fun r2 => if r2 = r then next (w.en r2) else w.en r2 })

/-- Kernel `regulator_disable`: `0` on success, a negative errno on failure. -/
@[simps]
def regulator_disable (r : Regulator) (w : World) : Int × World :=
  (w.dis r 0,
   { w with
     trace := w.trace ++ [Action.regulator_disable r]
     vcc_on := if r = Regulator.vcc then supply_after (w.dis r 0) false w.vcc_on else w.vcc_on
     iovcc_on :=
       if r = Regulator.iovcc then supply_after (w.dis r 0) false w.iovcc_on else w.iovcc_on
     dis := fun r2 => if r2 = r then next (w.dis r2) else w.dis r2 })

/-- Kernel `mipi_dsi_generic_write`: the number of bytes sent, or a negative
errno. -/
@[simps]
def mipi_dsi_generic_write (d : List Nat) (w : World) : Int × World :=
  (w.gw 0, { w with trace := w.trace ++ [Action.generic_write d], gw := next w.gw })

/-- A DCS short command (the shared shape of `mipi_dsi_dcs_exit_sleep_mode`,
`mipi_dsi_dcs_set_display_on`, ...): `0` on success, a negative errno on
failure. -/
@[simps]
def dcs_command (a : Action) (w : World) : Int × World :=
  (w.dcs 0, { w with trace := w.trace ++ [a], dcs := next w.dcs })

/-- Kernel `mipi_dsi_dcs_exit_sleep_mode`. -/
def mipi_dsi_dcs_exit_sleep_mode (w : World) : Int × World :=
  dcs_command Action.dcs_exit_sleep_mode w

/-- Kernel `mipi_dsi_dcs_set_display_on`. -/
def mipi_dsi_dcs_set_display_on (w : World) : Int × World :=
  dcs_command Action.dcs_set_display_on w

/-- Kernel `mipi_dsi_dcs_set_tear_on` with `MIPI_DSI_DCS_TEAR_MODE_VBLANK`. -/
def mipi_dsi_dcs_set_tear_on (w : World) : Int × World :=
  dcs_command Action.dcs_set_tear_on w

/-- Kernel `mipi_dsi_dcs_set_display_off`. -/
def mipi_dsi_dcs_set_display_off (w : World) : Int × World :=
  dcs_command Action.dcs_set_display_off w

/-- Kernel `mipi_dsi_dcs_enter_sleep_mode`. -/
def mipi_dsi_dcs_enter_sleep_mode (w : World) : Int × World :=
  dcs_command Action.dcs_enter_sleep_mode w

/-- Kernel `mipi_dsi_dcs_read`: the number of bytes read or a negative errno,
together with the bytes placed in the caller buffer (at most `len`). -/
@[simps]
def mipi_dsi_dcs_read (cmd len : Nat) (w : World) : (Int × List Nat) × World :=
  (((w.rd 0).1, (w.rd 0).2.take len),
   { w with trace := w.trace ++ [Action.dcs_read cmd len], rd := next w.rd })

/-- Copy `data` into `buf` starting at index `off`. -/
def buf_store (buf : List Nat) (off : Nat) (data : List Nat) : List Nat :=
  buf.take off ++ data.take (buf.length - off)
    ++ buf.drop (off + (data.take (buf.length - off)).length)


/-! ## The driver -/

/-- Macro `dsi_generic_write_seq(dsi, seq...)`: send the bytes `d`; a negative
return leaves the ENCLOSING function with that value, otherwise the enclosing
function goes on with `k`. -/
def dsi_generic_write_seq (d : List Nat) (k : World → Int × World) (w : World) :
    Int × World :=
  let r := mipi_dsi_generic_write d w
  if r.1 < 0 then (r.1, r.2) else k r.2

/-- Constant `JD9365DA_DCS_SWITCH_PAGE`. -/
def JD9365DA_DCS_SWITCH_PAGE : Nat := 0xe0

/-- The byte array of `jd9365da_switch_page(dsi, page)`. -/
def jd9365da_switch_page_d (page : Nat) : List Nat :=
  [JD9365DA_DCS_SWITCH_PAGE, page]

/-- Macro `jd9365da_switch_page(dsi, page)`. -/
def jd9365da_switch_page (page : Nat) (k : World → Int × World) (w : World) :
    Int × World :=
  dsi_generic_write_seq (jd9365da_switch_page_d page) k w

/-- Constant `DCS_GET_ID1`. -/
def DCS_GET_ID1 : Nat := 0xda

/-- Constant `DCS_GET_ID2`. -/
def DCS_GET_ID2 : Nat := 0xdb

/-- Constant `DCS_GET_ID3`. -/
def DCS_GET_ID3 : Nat := 0xdc

/-- Constant `JD9365_RDDIDIF`. -/
def JD9365_RDDIDIF : Nat := 0x04

/-- Function `dsi_get_id`.  The buffer `id[3]` is threaded explicitly; every test
is the C test `if (ret)`, that is `ret ≠ 0`. -/
def dsi_get_id (w : World) : Int × World :=
  let id : List Nat := [0x00, 0x00, 0x00]
  let r := mipi_dsi_dcs_read JD9365_RDDIDIF 3 w
  let id := buf_store id 0 r.1.2
  let w := if r.1.1 ≠ 0 then dev_err Msg.rddidif_error r.2 else r.2
  let r := mipi_dsi_dcs_read DCS_GET_ID1 1 w
  let id := buf_store id 0 r.1.2
  if r.1.1 ≠ 0 then (r.1.1, dev_err Msg.id1_error r.2) else
  let w := dev_warn (Msg.id1_value (id.getD 0 0)) r.2
  let r := mipi_dsi_dcs_read DCS_GET_ID2 1 w
  let id := buf_store id 1 r.1.2
  if r.1.1 ≠ 0 then (r.1.1, dev_err Msg.id2_error r.2) else
  let w := dev_warn (Msg.id2_value (id.getD 1 0)) r.2
  let r := mipi_dsi_dcs_read DCS_GET_ID3 1 w
  let id := buf_store id 2 r.1.2
  if r.1.1 ≠ 0 then (r.1.1, dev_err Msg.id3_error r.2) else
  let w := dev_warn (Msg.id3_value (id.getD 2 0)) r.2
  (r.1.1, w)

/-- Function `jadard_enable_standard_cmds`. -/
def jadard_enable_standard_cmds (w : World) : Int × World :=
  dsi_generic_write_seq [0xe1, 0x93] (
  dsi_generic_write_seq [0xe2, 0x65] (
  dsi_generic_write_seq [0xe3, 0xf8] (
  dsi_generic_write_seq [0x80, 0x03] (
  fun w => (0, w))))) w

/-- A run of consecutive `dsi_generic_write_seq` statements of one function, one
list entry per statement, followed by the rest `k` of that function. -/
def dsi_generic_write_seqs :
    List (List Nat) → (World → Int × World) → World → Int × World
  | [], k => k
  | d :: ds, k => dsi_generic_write_seq d (dsi_generic_write_seqs ds k)

/-- The statements of `jh057n_init_sequence` from `jd9365da_switch_page(dsi, 0x01)`
to the last `jd9365da_switch_page(dsi, 0x00)`, one entry per source line, in
source order. -/
def jh057n_page_writes : List (List Nat) :=
  [ jd9365da_switch_page_d 0x01,
    [0x00, 0x00],
    [0x01, 0x2B],
    [0x03, 0x10],
    [0x04, 0x2B],
    [0x0C, 0x74],
    [0x17, 0x00],
    [0x18, 0xCF],
    [0x19, 0x01],
    [0x1A, 0x00],
    [0x1B, 0xCF],
    [0x1C, 0x01],
    [0x24, 0xFE],
    [0x37, 0x09],
    [0x38, 0x04],
    [0x39, 0x00],
    [0x3A, 0x01],
    [0x3C, 0x5C],
    [0x3D, 0xFF],
    [0x3E, 0xFF],
    [0x3F, 0x7F],
    [0x40, 0x02],
    [0x41, 0xC8],
    [0x42, 0x66],
    [0x43, 0x10],
    [0x44, 0x0F],
    [0x45, 0x28],
    [0x55, 0x02],
    [0x57, 0x8D],
    [0x59, 0x0A],
    [0x5A, 0x29],
    [0x5B, 0x1A],
    [0x5D, 0x7F],
    [0x5E, 0x65],
    [0x5F, 0x53],
    [0x60, 0x45],
    [0x61, 0x3E],
    [0x62, 0x30],
    [0x63, 0x33],
    [0x64, 0x1F],
    [0x65, 0x3B],
    [0x66, 0x3C],
    [0x67, 0x3F],
    [0x68, 0x5D],
    [0x69, 0x49],
    [0x6A, 0x4D],
    [0x6B, 0x3D],
    [0x6C, 0x37],
    [0x6D, 0x28],
    [0x6E, 0x15],
    [0x6F, 0x00],
    [0x70, 0x7F],
    [0x71, 0x65],
    [0x72, 0x53],
    [0x73, 0x45],
    [0x74, 0x3E],
    [0x75, 0x30],
    [0x76, 0x33],
    [0x77, 0x1F],
    [0x78, 0x3B],
    [0x79, 0x3C],
    [0x7A, 0x3F],
    [0x7B, 0x5D],
    [0x7C, 0x49],
    [0x7D, 0x4D],
    [0x7E, 0x3D],
    [0x7F, 0x44],
    [0x80, 0x28],
    [0x81, 0x15],
    [0x82, 0x00],
    jd9365da_switch_page_d 0x02,
    [0x00, 0x41],
    [0x01, 0x5F],
    [0x02, 0x5F],
    [0x03, 0x4B],
    [0x04, 0x5F],
    [0x05, 0x5C],
    [0x06, 0x5F],
    [0x07, 0x49],
    [0x08, 0x5F],
    [0x09, 0x5A],
    [0x0A, 0x5F],
    [0x0B, 0x47],
    [0x0C, 0x5F],
    [0x0D, 0x4F],
    [0x0E, 0x5F],
    [0x0F, 0x45],
    [0x10, 0x5F],
    [0x11, 0x4D],
    [0x12, 0x5F],
    [0x13, 0x5E],
    [0x14, 0x51],
    [0x15, 0x5F],
    [0x16, 0x40],
    [0x17, 0x5F],
    [0x18, 0x5F],
    [0x19, 0x4A],
    [0x1A, 0x5F],
    [0x1B, 0x5B],
    [0x1C, 0x5F],
    [0x1D, 0x48],
    [0x1E, 0x5F],
    [0x1F, 0x59],
    [0x20, 0x5F],
    [0x21, 0x46],
    [0x22, 0x5F],
    [0x23, 0x4E],
    [0x24, 0x5F],
    [0x25, 0x44],
    [0x26, 0x5F],
    [0x27, 0x4C],
    [0x28, 0x5F],
    [0x29, 0x5E],
    [0x2A, 0x50],
    [0x2B, 0x5F],
    [0x2C, 0x10],
    [0x2D, 0x1F],
    [0x2E, 0x1F],
    [0x2F, 0x0C],
    [0x30, 0x1F],
    [0x31, 0x04],
    [0x32, 0x1F],
    [0x33, 0x0E],
    [0x34, 0x1F],
    [0x35, 0x06],
    [0x36, 0x1F],
    [0x37, 0x19],
    [0x38, 0x1F],
    [0x39, 0x08],
    [0x3A, 0x1F],
    [0x3B, 0x1B],
    [0x3C, 0x1F],
    [0x3D, 0x0A],
    [0x3E, 0x1E],
    [0x3F, 0x1F],
    [0x40, 0x00],
    [0x41, 0x1F],
    [0x42, 0x11],
    [0x43, 0x1F],
    [0x44, 0x1F],
    [0x45, 0x0D],
    [0x46, 0x1F],
    [0x47, 0x05],
    [0x48, 0x1F],
    [0x49, 0x0F],
    [0x4A, 0x1F],
    [0x4B, 0x07],
    [0x4C, 0x1F],
    [0x4D, 0x1A],
    [0x4E, 0x1F],
    [0x4F, 0x09],
    [0x50, 0x1F],
    [0x51, 0x1C],
    [0x52, 0x1F],
    [0x53, 0x0B],
    [0x54, 0x1E],
    [0x55, 0x1F],
    [0x56, 0x01],
    [0x57, 0x1F],
    [0x58, 0x40],
    [0x5B, 0x10],
    [0x5C, 0x01],
    [0x5D, 0x70],
    [0x5E, 0x01],
    [0x5F, 0x02],
    [0x60, 0x70],
    [0x61, 0x01],
    [0x62, 0x02],
    [0x63, 0x06],
    [0x64, 0x4A],
    [0x65, 0x56],
    [0x66, 0x4F],
    [0x67, 0xF7],
    [0x68, 0x01],
    [0x69, 0x06],
    [0x6A, 0x4A],
    [0x6B, 0x10],
    [0x6C, 0x00],
    [0x6D, 0x00],
    [0x6E, 0x00],
    [0x6F, 0x88],
    jd9365da_switch_page_d 0x04,
    [0x00, 0x0E],
    [0x02, 0xB3],
    [0x09, 0x60],
    [0x0e, 0x4A],
    [0x37, 0x58],
    [0x2b, 0x0F],
    jd9365da_switch_page_d 0x05,
    [0x15, 0x34],
    [0x16, 0x76],
    jd9365da_switch_page_d 0x00 ]

/-- The part of `jh057n_init_sequence` after the last register write: from the
first `msleep(120)` to `return 0`.  No return value is looked at, and the result
of `dsi_get_id` is cast to `void`. -/
def jh057n_init_tail (w : World) : Int × World :=
  let w := msleep 120 w
  let w := (mipi_dsi_dcs_exit_sleep_mode w).2
  let w := msleep 120 w
  let w := (mipi_dsi_dcs_set_display_on w).2
  let w := msleep 20 w
  let w := (mipi_dsi_dcs_set_tear_on w).2
  let w := (dsi_get_id w).2
  let w := dev_warn Msg.init_exit w
  (0, w)

/-- Function `jh057n_init_sequence`.  The statement
`jadard_enable_standard_cmds(dsi);` does not look at the value the helper
returns. -/
def jh057n_init_sequence (w : World) : Int × World :=
  let w := dev_warn Msg.init_entry w
  jd9365da_switch_page 0x00 (fun w =>
    let w := (jadard_enable_standard_cmds w).2
    dsi_generic_write_seqs jh057n_page_writes jh057n_init_tail w) w

/-- The part of `struct st7703_panel_desc` that the lifecycle uses. -/
structure st7703_panel_desc where
  /-- Number of DSI data lanes. -/
  lanes : Nat
  /-- The model-specific register programming routine. -/
  init_sequence : World → Int × World

/-- The descriptor `jh057n00900_panel_desc`. -/
def jh057n00900_panel_desc : st7703_panel_desc :=
  { lanes := 4, init_sequence := jh057n_init_sequence }

/-- Function `st7703_enable`, with `ctx->desc` passed explicitly. -/
def st7703_enable (desc : st7703_panel_desc) (w : World) : Int × World :=
  let r := desc.init_sequence w
  if r.1 < 0 then (r.1, dev_err (Msg.init_sequence_failed r.1) r.2) else
  let w := msleep 20 r.2
  let r := mipi_dsi_dcs_exit_sleep_mode w
  if r.1 < 0 then (r.1, dev_err (Msg.exit_sleep_failed r.1) r.2) else
  let w := msleep 60 r.2
  let r := mipi_dsi_dcs_set_display_on w
  if r.1 ≠ 0 then (r.1, r.2) else
  let w := dev_dbg Msg.init_sequence_done r.2
  (0, w)

/-- Function `st7703_disable`. -/
def st7703_disable (w : World) : Int × World :=
  let r := mipi_dsi_dcs_set_display_off w
  let w := if r.1 < 0 then dev_err (Msg.display_off_failed r.1) r.2 else r.2
  let r := mipi_dsi_dcs_enter_sleep_mode w
  let w := if r.1 < 0 then dev_err (Msg.enter_sleep_failed r.1) r.2 else r.2
  (0, w)

/-- Function `st7703_unprepare`. -/
def st7703_unprepare (w : World) : Int × World :=
  if !w.prepared then (0, w) else
  let w := gpiod_set_value_cansleep 1 w
  let w := (regulator_disable Regulator.iovcc w).2
  let w := (regulator_disable Regulator.vcc w).2
  let w := set_prepared false w
  (0, w)

/-- Function `st7703_prepare`; the label `disable_vcc` is the branch taken when
enabling `iovcc` fails. -/
def st7703_prepare (w : World) : Int × World :=
  if w.prepared then (0, w) else
  let w := dev_dbg Msg.resetting_panel w
  let r := regulator_enable Regulator.vcc w
  if r.1 < 0 then (r.1, dev_err (Msg.vcc_enable_failed r.1) r.2) else
  let r := regulator_enable Regulator.iovcc r.2
  if r.1 < 0 then
    let w := dev_err (Msg.iovcc_enable_failed r.1) r.2
    let w := (regulator_disable Regulator.vcc w).2
    (r.1, w)
  else
  let w := gpiod_set_value_cansleep 0 r.2
  let w := msleep 5 w
  let w := gpiod_set_value_cansleep 1 w
  let w := msleep 10 w
  let w := gpiod_set_value_cansleep 0 w
  let w := msleep 130 w
  let w := set_prepared true w
  (0, w)

/-- The four lifecycle operations of `struct drm_panel_funcs` that the driver
fills in (`get_modes` does not touch the hardware). -/
structure drm_panel_funcs where
  /-- The operation `.disable`. -/
  disable : World → Int × World
  /-- The operation `.unprepare`. -/
  unprepare : World → Int × World
  /-- The operation `.prepare`. -/
  prepare : World → Int × World
  /-- The operation `.enable`. -/
  enable : World → Int × World

/-- The table `st7703_drm_funcs`, for a panel whose `ctx->desc` is `desc`. -/
def st7703_drm_funcs (desc : st7703_panel_desc) : drm_panel_funcs :=
  { disable := st7703_disable
    unprepare := st7703_unprepare
    prepare := st7703_prepare
    enable := st7703_enable desc }

/-- Modelled from the spec: the framework entry point `drm_panel_unprepare`, whose
code is outside the driver file.  The panel is registered with the capability
set prepare / unprepare / enable / disable, and the framework hands the call to
the registered `unprepare` operation and returns its value. -/
def drm_panel_unprepare (funcs : drm_panel_funcs) (w : World) : Int × World :=
  funcs.unprepare w

/-- Modelled from the spec: the framework entry point `drm_panel_disable`, whose
code is outside the driver file.  The framework hands the call to the registered
`disable` operation and returns its value; backlight control is a separate
collaborator and makes no call recorded here. -/
def drm_panel_disable (funcs : drm_panel_funcs) (w : World) : Int × World :=
  funcs.disable w

/-- Function `st7703_shutdown` (returns `void`): unprepare first, then disable,
each followed by a `dev_err` when it returned a negative value. -/
def st7703_shutdown (desc : st7703_panel_desc) (w : World) : World :=
  let r := drm_panel_unprepare (st7703_drm_funcs desc) w
  let w := if r.1 < 0 then dev_err (Msg.unprepare_failed r.1) r.2 else r.2
  let r := drm_panel_disable (st7703_drm_funcs desc) w
  let w := if r.1 < 0 then dev_err (Msg.disable_failed r.1) r.2 else r.2
  w

/-! ## Worlds used in examples -/

/-- A freshly probed panel: not prepared, both supplies off, reset line low
(`GPIOD_OUT_LOW`), nothing recorded yet, with the given pending outcomes. -/
def fresh (gw dcs : Nat → Int) (rd : Nat → Int × List Nat)
    (en dis : Regulator → Nat → Int) (gpio_ok : Nat → Bool) : World :=
  { prepared := false, vcc_on := false, iovcc_on := false, reset_line := 0,
    trace := [], log := [], gw := gw, dcs := dcs, rd := rd, en := en, dis := dis,
    gpio_ok := gpio_ok }

/-- A fresh panel on which every write, command and regulator call succeeds and
every read delivers one byte `b` and returns the transport value `ret`. -/
def fresh_ok (ret : Int) (b : Nat) : World :=
  fresh (fun _ => 0) (fun _ => 0) (fun _ => (ret, [b])) (fun _ _ => 0) (fun _ _ => 0)
    (fun _ => true)

/-! ## Auxiliary definitions for the statements -/

/-- A fresh panel on which exactly one generic write fails: the one with index
`i` (counting from `0`) returns `e`. -/
def fresh_write_fault (i : Nat) (e : Int) : World :=
  fresh (fun k => if k = i then e else 0) (fun _ => 0) (fun _ => (1, [0x93]))
    (fun _ _ => 0) (fun _ _ => 0) (fun _ => true)

/-- The byte arrays of the four writes of `jadard_enable_standard_cmds`. -/
def jadard_writes : List (List Nat) :=
  [[0xe1, 0x93], [0xe2, 0x65], [0xe3, 0xf8], [0x80, 0x03]]

/-- Every generic write of `jh057n_init_sequence` in program order: the first
page switch, the four writes of the helper, then the page tables. -/
def jh057n_all_writes : List (List Nat) :=
  jd9365da_switch_page_d 0x00 :: (jadard_writes ++ jh057n_page_writes)

/-- The world once the writes `ds` have all been sent. -/
@[simps]
def after_writes (ds : List (List Nat)) (w : World) : World :=
  { w with
    trace := w.trace ++ ds.map Action.generic_write
    gw := fun n => w.gw (n + ds.length) }

/-- Whether an action is a DCS read. -/
def is_dcs_read : Action → Bool
  | Action.dcs_read _ _ => true
  | _ => false

/-- Whether an action is a command on the DSI link: a generic write, a DCS short
command or a DCS read. -/
def is_dsi_command : Action → Bool
  | Action.generic_write _ => true
  | Action.dcs_exit_sleep_mode => true
  | Action.dcs_set_display_on => true
  | Action.dcs_set_tear_on => true
  | Action.dcs_set_display_off => true
  | Action.dcs_enter_sleep_mode => true
  | Action.dcs_read _ _ => true
  | _ => false

/-- The fields that describe the power state and the regulator outcomes still
to come. -/
def power (w : World) :
    Bool × Bool × Bool × (Regulator → Nat → Int) × (Regulator → Nat → Int) :=
  (w.prepared, w.vcc_on, w.iovcc_on, w.en, w.dis)

/-- The actions that `jh057n_init_tail` performs before the identification
reads. -/
def init_tail_actions : List Action :=
  [Action.msleep 120, Action.dcs_exit_sleep_mode, Action.msleep 120,
   Action.dcs_set_display_on, Action.msleep 20, Action.dcs_set_tear_on]

/-- The actions of `st7703_enable` that follow a successful init routine when
its own two DCS commands succeed. -/
def enable_tail_actions : List Action :=
  [Action.msleep 20, Action.dcs_exit_sleep_mode, Action.msleep 60,
   Action.dcs_set_display_on]

/-- The hardware calls of a successful `st7703_prepare`, in program order. -/
def power_up_actions : List Action :=
  [Action.regulator_enable Regulator.vcc, Action.regulator_enable Regulator.iovcc,
   Action.gpiod_set_value 0, Action.msleep 5,
   Action.gpiod_set_value 1, Action.msleep 10,
   Action.gpiod_set_value 0, Action.msleep 130]

/-- The bring-up sequence as the specification scenario lists it, with
"asserted" the value `1` that `st7703_unprepare` drives: supplies on, reset
asserted / deasserted / asserted with delays 5, 10 and 130 ms, the register
writes, exit-sleep, 120 ms, display-on, 20 ms, tearing-enable, and nothing
else. -/
def claimed_bringup_trace : List Action :=
  [Action.regulator_enable Regulator.vcc, Action.regulator_enable Regulator.iovcc,
   Action.gpiod_set_value 1, Action.msleep 5,
   Action.gpiod_set_value 0, Action.msleep 10,
   Action.gpiod_set_value 1, Action.msleep 130]
  ++ jh057n_all_writes.map Action.generic_write
  ++ [Action.dcs_exit_sleep_mode, Action.msleep 120, Action.dcs_set_display_on,
      Action.msleep 20, Action.dcs_set_tear_on]

/-- A fresh panel whose leading `RDDIDIF` read fails with `-5` while every later
read succeeds: it returns `1`, the number of bytes read, and delivers one
byte. -/
def fresh_rddidif_fault : World :=
  fresh (fun _ => 0) (fun _ => 0)
    (fun k => if k = 0 then (-5, []) else (1, [0x40 + k]))
    (fun _ _ => 0) (fun _ _ => 0) (fun _ => true)

/-- A fresh panel on which every call succeeds except that disabling `iovcc`
fails with `-5`. -/
def fresh_iovcc_disable_fault : World :=
  fresh (fun _ => 0) (fun _ => 0) (fun _ => (1, [0x93])) (fun _ _ => 0)
    (fun r _ => if r = Regulator.iovcc then -5 else 0) (fun _ => true)

/-- A fresh panel on which enabling `iovcc` fails with `-22` and the rollback
call, disabling `vcc`, fails with `-5`; every other call succeeds. -/
def fresh_rollback_disable_fault : World :=
  fresh (fun _ => 0) (fun _ => 0) (fun _ => (1, [0x93]))
    (fun r _ => if r = Regulator.iovcc then -22 else 0)
    (fun r _ => if r = Regulator.vcc then -5 else 0) (fun _ => true)

/-- A panel that was prepared and then unprepared while disabling `iovcc` failed
with `-5`, and on which the next attempt to enable `iovcc` fails with `-22`;
every other call succeeds, the rollback call included. -/
def unprepared_iovcc_left_on : World :=
  (st7703_unprepare
    (st7703_prepare
      (fresh (fun _ => 0) (fun _ => 0) (fun _ => (1, [0x93]))
        (fun r k => if r = Regulator.iovcc ∧ k = 1 then -22 else 0)
        (fun r _ => if r = Regulator.iovcc then -5 else 0) (fun _ => true))).2).2

/-- The four lifecycle entry points of `st7703_drm_funcs`. -/
inductive PanelOp
  | prepare
  | enable
  | disable
  | unprepare
  deriving DecidableEq, Repr

/-- One lifecycle call on the `jh057n00900` panel. -/
def panel_op : PanelOp → World → Int × World
  | PanelOp.prepare => st7703_prepare
  | PanelOp.enable => st7703_enable jh057n00900_panel_desc
  | PanelOp.disable => st7703_disable
  | PanelOp.unprepare => st7703_unprepare

/-- The world after a sequence of lifecycle calls, each one carried out whatever
the previous ones returned. -/
def run_ops : List PanelOp → World → World
  | [], w => w
  | op :: ops, w => run_ops ops (panel_op op w).2

/-- Every regulator disable still to come succeeds. -/
def disables_succeed (w : World) : Prop :=
  ∀ r k, 0 ≤ w.dis r k

/-- Both supplies are on when the panel is prepared and off when it is not. -/
def power_consistent (w : World) : Prop :=
  w.vcc_on = w.prepared ∧ w.iovcc_on = w.prepared

/-! ## Lemmas on runs of register writes -/

theorem after_writes_nil (w : World) : after_writes [] w = w := by
  ext <;> simp [after_writes]

theorem after_writes_cons (d : List Nat) (ds : List (List Nat)) (w : World) :
    after_writes ds (mipi_dsi_generic_write d w).2 = after_writes (d :: ds) w := by
  ext <;> simp [after_writes, mipi_dsi_generic_write, next, Nat.add_assoc, Nat.add_comm 1]

theorem after_writes_append (ds es : List (List Nat)) (w : World) :
    after_writes es (after_writes ds w) = after_writes (ds ++ es) w := by
  ext <;> simp [after_writes, Nat.add_assoc, Nat.add_comm es.length]

/-- A run of writes that all succeed falls through to the rest of the function. -/
theorem write_seqs_ok (ds : List (List Nat)) (k : World → Int × World) (w : World)
    (h : ∀ i, i < ds.length → 0 ≤ w.gw i) :
    dsi_generic_write_seqs ds k w = k (after_writes ds w) := by
  induction ds generalizing w with
  | nil => simp [dsi_generic_write_seqs, after_writes_nil]
  | cons d ds ih =>
    have h0 : ¬ w.gw 0 < 0 := not_lt.mpr (h 0 (by simp))
    have hrest : ∀ i, i < ds.length → 0 ≤ (mipi_dsi_generic_write d w).2.gw i := by
      intro i hi
      simpa [mipi_dsi_generic_write, next] using h (i + 1) (by simpa using hi)
    have hstep : dsi_generic_write_seqs (d :: ds) k w
        = dsi_generic_write_seqs ds k (mipi_dsi_generic_write d w).2 := by
      simp [dsi_generic_write_seqs, dsi_generic_write_seq, mipi_dsi_generic_write, h0]
    rw [hstep, ih _ hrest, after_writes_cons]

/-- A run of writes stops at the first write that fails and hands its return
value to the caller of the enclosing function. -/
theorem write_seqs_fail (ds : List (List Nat)) (k : World → Int × World) (w : World)
    (i : Nat) (hi : i < ds.length) (hok : ∀ j, j < i → 0 ≤ w.gw j) (hf : w.gw i < 0) :
    dsi_generic_write_seqs ds k w = (w.gw i, after_writes (ds.take (i + 1)) w) := by
  induction ds generalizing w i with
  | nil => simp at hi
  | cons d ds ih =>
    cases i with
    | zero =>
      have h1 : (mipi_dsi_generic_write d w).1 < 0 := hf
      have hstop : dsi_generic_write_seqs (d :: ds) k w
          = ((mipi_dsi_generic_write d w).1, (mipi_dsi_generic_write d w).2) := by
        simp only [dsi_generic_write_seqs, dsi_generic_write_seq]
        rw [if_pos h1]
      rw [hstop]
      show _ = (w.gw 0, after_writes [d] w)
      rw [← after_writes_cons, after_writes_nil]
      rfl
    | succ i =>
      have h0 : ¬ w.gw 0 < 0 := not_lt.mpr (hok 0 (by simp))
      have hstep : dsi_generic_write_seqs (d :: ds) k w
          = dsi_generic_write_seqs ds k (mipi_dsi_generic_write d w).2 := by
        simp [dsi_generic_write_seqs, dsi_generic_write_seq, mipi_dsi_generic_write, h0]
      have hok2 : ∀ j, j < i → 0 ≤ (mipi_dsi_generic_write d w).2.gw j := by
        intro j hj
        simpa [mipi_dsi_generic_write, next] using hok (j + 1) (by omega)
      have hf2 : (mipi_dsi_generic_write d w).2.gw i < 0 := by
        simpa [mipi_dsi_generic_write, next] using hf
      rw [hstep, ih _ i (by simpa using hi) hok2 hf2, after_writes_cons]
      simp [mipi_dsi_generic_write, next]

theorem jadard_eq_write_seqs (w : World) :
    jadard_enable_standard_cmds w
      = dsi_generic_write_seqs jadard_writes (fun w => (0, w)) w := rfl

theorem jh057n_page_writes_length : jh057n_page_writes.length = 192 := rfl

theorem jh057n_all_writes_length : jh057n_all_writes.length = 197 := rfl

/-- When the first 197 generic writes succeed, the routine reaches its tail with
all of them sent. -/
theorem init_sequence_writes_ok (w : World) (h : ∀ i, i < 197 → 0 ≤ w.gw i) :
    jh057n_init_sequence w
      = jh057n_init_tail (after_writes jh057n_all_writes (dev_warn Msg.init_entry w)) := by
  have h0 : ∀ i, i < [jd9365da_switch_page_d 0x00].length →
      0 ≤ (dev_warn Msg.init_entry w).gw i := by
    intro i hi
    exact h i (by simp at hi; omega)
  have h1 : ∀ i, i < jadard_writes.length →
      0 ≤ (after_writes [jd9365da_switch_page_d 0x00] (dev_warn Msg.init_entry w)).gw i := by
    intro i hi
    simp only [jadard_writes, List.length_cons, List.length_nil] at hi
    simpa [after_writes, dev_warn] using h (i + 1) (by omega)
  have h2 : ∀ i, i < jh057n_page_writes.length →
      0 ≤ (after_writes jadard_writes
        (after_writes [jd9365da_switch_page_d 0x00] (dev_warn Msg.init_entry w))).gw i := by
    intro i hi
    rw [jh057n_page_writes_length] at hi
    simpa [after_writes, dev_warn, jadard_writes, Nat.add_assoc] using h (i + 5) (by omega)
  have e0 : jh057n_init_sequence w
      = dsi_generic_write_seqs [jd9365da_switch_page_d 0x00]
          (fun w => dsi_generic_write_seqs jh057n_page_writes jh057n_init_tail
            (jadard_enable_standard_cmds w).2) (dev_warn Msg.init_entry w) := rfl
  rw [e0, write_seqs_ok _ _ _ h0]
  rw [jadard_eq_write_seqs, write_seqs_ok _ _ _ h1, write_seqs_ok _ _ _ h2,
    after_writes_append, after_writes_append]
  rfl

/-- Fail-fast outside the helper: when the page switch, the four helper writes and
the first `j` page-table writes succeed and the next write fails, the routine
stops right there and returns the error. -/
theorem init_sequence_write_fails (w : World) (j : Nat) (hj : j < 192)
    (hok : ∀ i, i < j + 5 → 0 ≤ w.gw i) (hf : w.gw (j + 5) < 0) :
    jh057n_init_sequence w
      = (w.gw (j + 5),
         after_writes (jh057n_all_writes.take (j + 6)) (dev_warn Msg.init_entry w)) := by
  have h0 : ∀ i, i < [jd9365da_switch_page_d 0x00].length →
      0 ≤ (dev_warn Msg.init_entry w).gw i := by
    intro i hi
    exact hok i (by simp at hi; omega)
  have h1 : ∀ i, i < jadard_writes.length →
      0 ≤ (after_writes [jd9365da_switch_page_d 0x00] (dev_warn Msg.init_entry w)).gw i := by
    intro i hi
    simp only [jadard_writes, List.length_cons, List.length_nil] at hi
    simpa [after_writes, dev_warn] using hok (i + 1) (by omega)
  have h2 : ∀ i, i < j →
      0 ≤ (after_writes jadard_writes
        (after_writes [jd9365da_switch_page_d 0x00] (dev_warn Msg.init_entry w))).gw i := by
    intro i hi
    simpa [after_writes, dev_warn, jadard_writes, Nat.add_assoc] using hok (i + 5) (by omega)
  have h3 : (after_writes jadard_writes
        (after_writes [jd9365da_switch_page_d 0x00] (dev_warn Msg.init_entry w))).gw j
        = w.gw (j + 5) := by
    simp [after_writes, dev_warn, jadard_writes, Nat.add_assoc]
  have e0 : jh057n_init_sequence w
      = dsi_generic_write_seqs [jd9365da_switch_page_d 0x00]
          (fun w => dsi_generic_write_seqs jh057n_page_writes jh057n_init_tail
            (jadard_enable_standard_cmds w).2) (dev_warn Msg.init_entry w) := rfl
  have etake : jh057n_all_writes.take (j + 6)
      = [jd9365da_switch_page_d 0x00] ++ (jadard_writes ++ jh057n_page_writes.take (j + 1)) := by
    simp [jh057n_all_writes, jadard_writes, List.take_append_eq_append_take]
  rw [e0, write_seqs_ok _ _ _ h0]
  rw [jadard_eq_write_seqs, write_seqs_ok _ _ _ h1,
    write_seqs_fail _ _ _ j (by rw [jh057n_page_writes_length]; exact hj) h2 (by rw [h3]; exact hf),
    h3, after_writes_append, after_writes_append, etake]

/-! ## Frame lemmas: what the DSI routines leave alone -/

theorem dsi_get_id_power (w : World) : power (dsi_get_id w).2 = power w := by
  unfold dsi_get_id
  simp only [mipi_dsi_dcs_read, dev_err, dev_warn]
  split_ifs <;> rfl

theorem dsi_get_id_dcs (w : World) : (dsi_get_id w).2.dcs = w.dcs := by
  unfold dsi_get_id
  simp only [mipi_dsi_dcs_read, dev_err, dev_warn]
  split_ifs <;> rfl

theorem dsi_get_id_gw (w : World) : (dsi_get_id w).2.gw = w.gw := by
  unfold dsi_get_id
  simp only [mipi_dsi_dcs_read, dev_err, dev_warn]
  split_ifs <;> rfl

/-- The identification routine adds DCS reads to the trace and nothing else. -/
theorem dsi_get_id_trace (w : World) :
    ∃ reads : List Action, (∀ a ∈ reads, is_dcs_read a = true) ∧
      (dsi_get_id w).2.trace = w.trace ++ reads := by
  unfold dsi_get_id
  simp only [mipi_dsi_dcs_read, dev_err, dev_warn]
  split_ifs
  all_goals
    simp only [List.append_assoc, List.singleton_append, List.cons_append, List.nil_append]
    refine ⟨_, ?_, rfl⟩
    simp [is_dcs_read]

theorem init_tail_ret (w : World) : (jh057n_init_tail w).1 = 0 := rfl

theorem init_tail_power (w : World) : power (jh057n_init_tail w).2 = power w := by
  simp only [jh057n_init_tail, dev_warn, power]
  have h := dsi_get_id_power
    (mipi_dsi_dcs_set_tear_on (msleep 20 (mipi_dsi_dcs_set_display_on (msleep 120
      (mipi_dsi_dcs_exit_sleep_mode (msleep 120 w)).2)).2)).2
  simp only [power] at h
  simpa [mipi_dsi_dcs_set_tear_on, mipi_dsi_dcs_set_display_on,
    mipi_dsi_dcs_exit_sleep_mode, dcs_command, msleep] using h

theorem init_tail_dcs (w : World) :
    (jh057n_init_tail w).2.dcs = fun n => w.dcs (n + 3) := by
  simp only [jh057n_init_tail, dev_warn]
  rw [dsi_get_id_dcs]
  funext n
  simp [mipi_dsi_dcs_set_tear_on, mipi_dsi_dcs_set_display_on,
    mipi_dsi_dcs_exit_sleep_mode, dcs_command, msleep, next, Nat.add_assoc]

theorem init_tail_trace (w : World) :
    ∃ reads : List Action, (∀ a ∈ reads, is_dcs_read a = true) ∧
      (jh057n_init_tail w).2.trace = w.trace ++ init_tail_actions ++ reads := by
  obtain ⟨reads, hr, ht⟩ := dsi_get_id_trace
    (mipi_dsi_dcs_set_tear_on (msleep 20 (mipi_dsi_dcs_set_display_on (msleep 120
      (mipi_dsi_dcs_exit_sleep_mode (msleep 120 w)).2)).2)).2
  refine ⟨reads, hr, ?_⟩
  simp only [jh057n_init_tail, dev_warn]
  rw [ht]
  simp [mipi_dsi_dcs_set_tear_on, mipi_dsi_dcs_set_display_on,
    mipi_dsi_dcs_exit_sleep_mode, dcs_command, msleep, init_tail_actions]

theorem write_seq_power (d : List Nat) (k : World → Int × World)
    (hk : ∀ w, power (k w).2 = power w) (w : World) :
    power (dsi_generic_write_seq d k w).2 = power w := by
  unfold dsi_generic_write_seq
  simp only []
  split_ifs
  · rfl
  · rw [hk]; rfl

theorem write_seqs_power (ds : List (List Nat)) (k : World → Int × World)
    (hk : ∀ w, power (k w).2 = power w) (w : World) :
    power (dsi_generic_write_seqs ds k w).2 = power w := by
  induction ds generalizing w with
  | nil => exact hk w
  | cons d ds ih => exact write_seq_power d _ ih w

theorem jadard_power (w : World) : power (jadard_enable_standard_cmds w).2 = power w := by
  rw [jadard_eq_write_seqs]
  exact write_seqs_power _ _ (fun _ => rfl) w

/-- The init routine never touches the power state, whatever fails. -/
theorem init_sequence_power (w : World) : power (jh057n_init_sequence w).2 = power w := by
  have e0 : jh057n_init_sequence w
      = dsi_generic_write_seq (jd9365da_switch_page_d 0x00)
          (fun w => dsi_generic_write_seqs jh057n_page_writes jh057n_init_tail
            (jadard_enable_standard_cmds w).2) (dev_warn Msg.init_entry w) := rfl
  rw [e0, write_seq_power]
  · rfl
  · intro w2
    rw [write_seqs_power _ _ init_tail_power, jadard_power]

theorem enable_power_of (desc : st7703_panel_desc) (w : World)
    (h : power (desc.init_sequence w).2 = power w) :
    power (st7703_enable desc w).2 = power w := by
  unfold st7703_enable
  generalize desc.init_sequence w = r at h ⊢
  simp only [mipi_dsi_dcs_exit_sleep_mode, mipi_dsi_dcs_set_display_on, dcs_command,
    msleep, dev_err, dev_dbg]
  split_ifs <;> exact h

/-- Enabling never touches the power state, whatever fails. -/
theorem enable_power (w : World) :
    power (st7703_enable jh057n00900_panel_desc w).2 = power w :=
  enable_power_of jh057n00900_panel_desc w (init_sequence_power w)

/-- Disabling never touches the power state, whatever fails. -/
theorem disable_power (w : World) : power (st7703_disable w).2 = power w := by
  unfold st7703_disable
  simp only [mipi_dsi_dcs_set_display_off, mipi_dsi_dcs_enter_sleep_mode, dcs_command,
    dev_err]
  split_ifs <;> rfl

/-! ## Enabling after the init routine has returned -/

/-- Once the init routine has returned a non-negative value, `st7703_enable` is
determined by the next two DCS outcomes. -/
theorem enable_after_init (desc : st7703_panel_desc) (w : World)
    (h : ¬ (desc.init_sequence w).1 < 0) :
    (st7703_enable desc w).1
        = (if (desc.init_sequence w).2.dcs 0 < 0 then (desc.init_sequence w).2.dcs 0
           else (desc.init_sequence w).2.dcs 1) ∧
    (st7703_enable desc w).2.trace
        = (desc.init_sequence w).2.trace
            ++ (Action.msleep 20 :: Action.dcs_exit_sleep_mode ::
                (if (desc.init_sequence w).2.dcs 0 < 0 then []
                 else [Action.msleep 60, Action.dcs_set_display_on])) := by
  unfold st7703_enable
  generalize desc.init_sequence w = r at h ⊢
  simp only [if_neg h, mipi_dsi_dcs_exit_sleep_mode, mipi_dsi_dcs_set_display_on]
  by_cases h0 : r.2.dcs 0 < 0
  · simp [h0]
  · by_cases h1 : r.2.dcs 1 = 0
    · simp [h0, h1, next]
    · simp [h0, h1, next]

/-- With the first 197 generic writes succeeding, the init routine returns `0`,
consumes three DCS outcomes, and its trace is the writes, the tail actions and
some identification reads. -/
theorem init_sequence_ok (w : World) (h : ∀ i, i < 197 → 0 ≤ w.gw i) :
    (jh057n_init_sequence w).1 = 0 ∧
    (jh057n_init_sequence w).2.dcs = (fun n => w.dcs (n + 3)) ∧
    ∃ reads : List Action, (∀ a ∈ reads, is_dcs_read a = true) ∧
      (jh057n_init_sequence w).2.trace
        = w.trace ++ jh057n_all_writes.map Action.generic_write
            ++ init_tail_actions ++ reads := by
  rw [init_sequence_writes_ok w h]
  refine ⟨init_tail_ret _, ?_, ?_⟩
  · rw [init_tail_dcs]; rfl
  · obtain ⟨reads, hr, ht⟩ := init_tail_trace
      (after_writes jh057n_all_writes (dev_warn Msg.init_entry w))
    exact ⟨reads, hr, by rw [ht]; rfl⟩

/-- A run of `st7703_enable` in which the 197 writes and its own two DCS
commands succeed. -/
theorem enable_ok (w : World) (hgw : ∀ i, i < 197 → 0 ≤ w.gw i)
    (h3 : 0 ≤ w.dcs 3) (h4 : w.dcs 4 = 0) :
    (st7703_enable jh057n00900_panel_desc w).1 = 0 ∧
    ∃ reads : List Action, (∀ a ∈ reads, is_dcs_read a = true) ∧
      (st7703_enable jh057n00900_panel_desc w).2.trace
        = w.trace ++ jh057n_all_writes.map Action.generic_write
            ++ init_tail_actions ++ reads ++ enable_tail_actions := by
  obtain ⟨hret, hdcs, reads, hr, ht⟩ := init_sequence_ok w hgw
  have hn : ¬ (jh057n00900_panel_desc.init_sequence w).1 < 0 := by
    show ¬ (jh057n_init_sequence w).1 < 0
    rw [hret]; decide
  obtain ⟨e1, e2⟩ := enable_after_init jh057n00900_panel_desc w hn
  have hd0 : (jh057n00900_panel_desc.init_sequence w).2.dcs 0 = w.dcs 3 := by
    show (jh057n_init_sequence w).2.dcs 0 = w.dcs 3
    rw [hdcs]
  have hd1 : (jh057n00900_panel_desc.init_sequence w).2.dcs 1 = w.dcs 4 := by
    show (jh057n_init_sequence w).2.dcs 1 = w.dcs 4
    rw [hdcs]
  have hn3 : ¬ w.dcs 3 < 0 := not_lt.mpr h3
  rw [hd0, hd1, if_neg hn3] at e1
  rw [hd0, if_neg hn3] at e2
  refine ⟨by rw [e1, h4], reads, hr, ?_⟩
  rw [e2]
  show (jh057n_init_sequence w).2.trace ++ _ = _
  rw [ht]
  rfl

/-! ## Lemmas on the lifecycle calls -/

/-- A run of `st7703_prepare` in which both supplies come up. -/
theorem prepare_ok (w : World) (hp : w.prepared = false)
    (hvcc : 0 ≤ w.en Regulator.vcc 0) (hio : 0 ≤ w.en Regulator.iovcc 0) :
    (st7703_prepare w).1 = 0 ∧
    (st7703_prepare w).2.trace = w.trace ++ power_up_actions ∧
    (st7703_prepare w).2.prepared = true ∧
    (st7703_prepare w).2.gw = w.gw ∧
    (st7703_prepare w).2.dcs = w.dcs := by
  have h1 : ¬ w.en Regulator.vcc 0 < 0 := not_lt.mpr hvcc
  have h2 : ¬ w.en Regulator.iovcc 0 < 0 := not_lt.mpr hio
  refine ⟨?_, ?_, ?_, ?_, ?_⟩
  · simp [st7703_prepare, hp, h1, h2, next]
  · simp [st7703_prepare, hp, h1, h2, next, power_up_actions]
  · simp [st7703_prepare, hp, h1, h2, next]
  · funext n
    simp [st7703_prepare, hp, h1, h2, next]
  · funext n
    simp [st7703_prepare, hp, h1, h2, next]

/-- A call of `st7703_prepare` on a prepared panel does nothing. -/
theorem prepare_prepared (w : World) (hp : w.prepared = true) :
    st7703_prepare w = (0, w) := by
  simp [st7703_prepare, hp]

/-- A call of `st7703_prepare` that returns `0` leaves the panel prepared. -/
theorem prepare_zero_prepared (w : World) (h : (st7703_prepare w).1 = 0) :
    (st7703_prepare w).2.prepared = true := by
  cases hp : w.prepared with
  | true => rw [prepare_prepared w hp]; exact hp
  | false =>
    by_cases h1 : w.en Regulator.vcc 0 < 0
    · have : (st7703_prepare w).1 = w.en Regulator.vcc 0 := by
        simp [st7703_prepare, hp, h1]
      omega
    · by_cases h2 : w.en Regulator.iovcc 0 < 0
      · have : (st7703_prepare w).1 = w.en Regulator.iovcc 0 := by
          simp [st7703_prepare, hp, h1, h2, next]
        omega
      · exact (prepare_ok w hp (not_lt.mp h1) (not_lt.mp h2)).2.2.1

theorem init_tail_gw (w : World) : (jh057n_init_tail w).2.gw = w.gw := by
  simp only [jh057n_init_tail]
  funext n
  simp only [dev_warn_gw]
  rw [dsi_get_id_gw]
  simp [mipi_dsi_dcs_set_tear_on, mipi_dsi_dcs_set_display_on,
    mipi_dsi_dcs_exit_sleep_mode]

theorem init_sequence_ok_gw (w : World) (h : ∀ i, i < 197 → 0 ≤ w.gw i) :
    (jh057n_init_sequence w).2.gw = (fun n => w.gw (n + 197)) := by
  rw [init_sequence_writes_ok w h, init_tail_gw]
  rfl

/-- The outcome streams after a run of `st7703_enable` in which the 197 writes
and its own two DCS commands succeed. -/
theorem enable_ok_streams (w : World) (hgw : ∀ i, i < 197 → 0 ≤ w.gw i)
    (h3 : 0 ≤ w.dcs 3) (h4 : w.dcs 4 = 0) :
    (∀ n, (st7703_enable jh057n00900_panel_desc w).2.gw n = w.gw (n + 197)) ∧
    (∀ n, (st7703_enable jh057n00900_panel_desc w).2.dcs n = w.dcs (n + 5)) := by
  obtain ⟨hret, hdcs, -⟩ := init_sequence_ok w hgw
  have hg := init_sequence_ok_gw w hgw
  unfold st7703_enable
  have e : jh057n00900_panel_desc.init_sequence w = jh057n_init_sequence w := rfl
  rw [e]
  generalize jh057n_init_sequence w = r at hret hdcs hg
  have hn : ¬ r.1 < 0 := by rw [hret]; decide
  have h0 : ¬ r.2.dcs 0 < 0 := by rw [hdcs]; exact not_lt.mpr h3
  have h1 : r.2.dcs 1 = 0 := by rw [hdcs]; exact h4
  simp only [if_neg hn, mipi_dsi_dcs_exit_sleep_mode, mipi_dsi_dcs_set_display_on]
  constructor
  · intro n
    simp [h0, h1, next, hg]
  · intro n
    have hn3 : ¬ w.dcs 3 < 0 := not_lt.mpr h3
    simp [hn3, h4, next, hdcs, Nat.add_assoc]

/-- Preparing keeps the power state consistent as long as disables succeed. -/
theorem prepare_keeps (w : World) (hc : power_consistent w) (hd : disables_succeed w) :
    power_consistent (st7703_prepare w).2 ∧ disables_succeed (st7703_prepare w).2 := by
  obtain ⟨hv, hi⟩ := hc
  cases hp : w.prepared with
  | true =>
    rw [prepare_prepared w hp]
    exact ⟨⟨hv, hi⟩, hd⟩
  | false =>
    rw [hp] at hv hi
    by_cases h1 : w.en Regulator.vcc 0 < 0
    · constructor
      · constructor <;> simp [st7703_prepare, hp, h1, supply_after, hv, hi]
      · intro r k
        simpa [st7703_prepare, hp, h1] using hd r k
    · by_cases h2 : w.en Regulator.iovcc 0 < 0
      · have h3 : ¬ w.dis Regulator.vcc 0 < 0 := not_lt.mpr (hd _ _)
        constructor
        · constructor <;> simp [st7703_prepare, hp, h1, h2, h3, next, supply_after, hv, hi]
        · intro r k
          cases r
          · simpa [st7703_prepare, hp, h1, h2, next] using hd Regulator.vcc (k + 1)
          · simpa [st7703_prepare, hp, h1, h2, next] using hd Regulator.iovcc k
      · constructor
        · constructor <;> simp [st7703_prepare, hp, h1, h2, next, supply_after]
        · intro r k
          simpa [st7703_prepare, hp, h1, h2, next] using hd r k

/-- Unpreparing keeps the power state consistent as long as disables succeed. -/
theorem unprepare_keeps (w : World) (hc : power_consistent w) (hd : disables_succeed w) :
    power_consistent (st7703_unprepare w).2 ∧ disables_succeed (st7703_unprepare w).2 := by
  cases hp : w.prepared with
  | false =>
    have e : st7703_unprepare w = (0, w) := by simp [st7703_unprepare, hp]
    rw [e]
    exact ⟨hc, hd⟩
  | true =>
    have h1 : ¬ w.dis Regulator.iovcc 0 < 0 := not_lt.mpr (hd _ _)
    have h2 : ¬ w.dis Regulator.vcc 0 < 0 := not_lt.mpr (hd _ _)
    constructor
    · constructor <;> simp [st7703_unprepare, hp, h1, h2, next, supply_after]
    · intro r k
      cases r
      · simpa [st7703_unprepare, hp, next] using hd Regulator.vcc (k + 1)
      · simpa [st7703_unprepare, hp, next] using hd Regulator.iovcc (k + 1)

/-- A call that leaves the `power` fields alone keeps both properties. -/
theorem keeps_of_power (w w2 : World) (h : power w2 = power w)
    (hc : power_consistent w) (hd : disables_succeed w) :
    power_consistent w2 ∧ disables_succeed w2 := by
  simp only [power, Prod.mk.injEq] at h
  obtain ⟨e1, e2, e3, -, e5⟩ := h
  refine ⟨⟨by rw [e2, e1]; exact hc.1, by rw [e3, e1]; exact hc.2⟩, ?_⟩
  intro r k
  rw [e5]
  exact hd r k

/-- Every lifecycle call keeps the power state consistent as long as disables
succeed. -/
theorem panel_op_keeps (op : PanelOp) (w : World)
    (hc : power_consistent w) (hd : disables_succeed w) :
    power_consistent (panel_op op w).2 ∧ disables_succeed (panel_op op w).2 := by
  cases op with
  | prepare => exact prepare_keeps w hc hd
  | enable => exact keeps_of_power w _ (enable_power w) hc hd
  | disable => exact keeps_of_power w _ (disable_power w) hc hd
  | unprepare => exact unprepare_keeps w hc hd

theorem run_ops_keeps (ops : List PanelOp) (w : World)
    (hc : power_consistent w) (hd : disables_succeed w) :
    power_consistent (run_ops ops w) ∧ disables_succeed (run_ops ops w) := by
  induction ops generalizing w with
  | nil => exact ⟨hc, hd⟩
  | cons op ops ih =>
    obtain ⟨hc2, hd2⟩ := panel_op_keeps op w hc hd
    exact ih _ hc2 hd2

/-! ## Claims -/

/-- C1 (the code at the failing input): the second generic write of
`jh057n_init_sequence`, the first one made through `jadard_enable_standard_cmds`,
fails with `-5`.  The helper stops and returns `-5`, but the routine drops that
value: it goes on with every later page switch and register write, the delays,
the three DCS commands and the identification reads, and returns `0`. -/
theorem C1_helper_write_failure_dropped :
    (jadard_enable_standard_cmds
        (mipi_dsi_generic_write (jd9365da_switch_page_d 0x00)
          (fresh_write_fault 1 (-5))).2).1 = -5 ∧
    (jh057n_init_sequence (fresh_write_fault 1 (-5))).1 = 0 ∧
    (jh057n_init_sequence (fresh_write_fault 1 (-5))).2.trace
      = [Action.generic_write [0xe0, 0x00], Action.generic_write [0xe1, 0x93]]
          ++ jh057n_page_writes.map Action.generic_write
          ++ [Action.msleep 120, Action.dcs_exit_sleep_mode, Action.msleep 120,
              Action.dcs_set_display_on, Action.msleep 20, Action.dcs_set_tear_on,
              Action.dcs_read 0x04 3, Action.dcs_read 0xda 1] := by
  set_option maxRecDepth 100000 in decide

/-- C2 (counterexample): two panels with `prepared` false on which enabling `vcc`
succeeds and enabling `iovcc` fails with `-22`, and on which `st7703_prepare`
returns `-22` without both supplies ending off.  On the first, a fresh panel,
the rollback `regulator_disable` of `vcc` fails and its return value is not
looked at, so `vcc` stays on.  On the second, reached by prepare and then
unprepare with a failed `iovcc` disable, the rollback succeeds and `vcc` ends
off, but `iovcc`, on before the call, is still on. -/
theorem C2_rollback_can_leave_a_supply_on :
    (fresh_rollback_disable_fault.prepared = false ∧
      0 ≤ fresh_rollback_disable_fault.en Regulator.vcc 0 ∧
      fresh_rollback_disable_fault.en Regulator.iovcc 0 = -22 ∧
      (st7703_prepare fresh_rollback_disable_fault).1 = -22 ∧
      (st7703_prepare fresh_rollback_disable_fault).2.prepared = false ∧
      (st7703_prepare fresh_rollback_disable_fault).2.vcc_on = true) ∧
    (unprepared_iovcc_left_on.prepared = false ∧
      0 ≤ unprepared_iovcc_left_on.en Regulator.vcc 0 ∧
      unprepared_iovcc_left_on.en Regulator.iovcc 0 = -22 ∧
      0 ≤ unprepared_iovcc_left_on.dis Regulator.vcc 0 ∧
      (st7703_prepare unprepared_iovcc_left_on).1 = -22 ∧
      (st7703_prepare unprepared_iovcc_left_on).2.prepared = false ∧
      (st7703_prepare unprepared_iovcc_left_on).2.vcc_on = false ∧
      (st7703_prepare unprepared_iovcc_left_on).2.iovcc_on = true) := by
  decide

/-- C2 (amended): when the panel is not prepared, enabling `vcc` succeeds and
enabling `iovcc` fails with `e`, `st7703_prepare` makes exactly three hardware
calls (enable `vcc`, enable `iovcc`, disable `vcc`), so it disables `vcc` once
and neither drives the reset line nor sleeps; it returns `e` and leaves
`prepared` false.  When `iovcc` was off before the call and the rollback
`regulator_disable` of `vcc` succeeds, both supplies end off. -/
theorem C2_prepare_rollback (w : World) (e : Int)
    (hp : w.prepared = false) (hvcc : 0 ≤ w.en Regulator.vcc 0)
    (hio : w.en Regulator.iovcc 0 = e) (he : e < 0) :
    (st7703_prepare w).1 = e ∧
    (st7703_prepare w).2.trace
      = w.trace ++ [Action.regulator_enable Regulator.vcc,
          Action.regulator_enable Regulator.iovcc,
          Action.regulator_disable Regulator.vcc] ∧
    (st7703_prepare w).2.prepared = false ∧
    (st7703_prepare w).2.reset_line = w.reset_line ∧
    (w.iovcc_on = false → 0 ≤ w.dis Regulator.vcc 0 →
      (st7703_prepare w).2.vcc_on = false ∧ (st7703_prepare w).2.iovcc_on = false) := by
  subst hio
  have h1 : ¬ w.en Regulator.vcc 0 < 0 := not_lt.mpr hvcc
  refine ⟨?_, ?_, ?_, ?_, ?_⟩
  · simp [st7703_prepare, hp, h1, he, next]
  · simp [st7703_prepare, hp, h1, he, next]
  · simp [st7703_prepare, hp, h1, he, next]
  · simp [st7703_prepare, hp, h1, he, next]
  · intro hoff hd
    have h3 : ¬ w.dis Regulator.vcc 0 < 0 := not_lt.mpr hd
    simp [st7703_prepare, hp, h1, he, h3, next, supply_after, hoff]

/-- C2 (amended) at a concrete panel: `iovcc` fails to come up with `-22`. -/
theorem C2_prepare_rollback_witness :
    (st7703_prepare (fresh (fun _ => 0) (fun _ => 0) (fun _ => (1, [0]))
        (fun r _ => if r = Regulator.iovcc then -22 else 0) (fun _ _ => 0)
        (fun _ => true))).1 = -22 ∧
    (st7703_prepare (fresh (fun _ => 0) (fun _ => 0) (fun _ => (1, [0]))
        (fun r _ => if r = Regulator.iovcc then -22 else 0) (fun _ _ => 0)
        (fun _ => true))).2.vcc_on = false ∧
    (st7703_prepare (fresh (fun _ => 0) (fun _ => 0) (fun _ => (1, [0]))
        (fun r _ => if r = Regulator.iovcc then -22 else 0) (fun _ _ => 0)
        (fun _ => true))).2.iovcc_on = false :=
  have h := C2_prepare_rollback
    (fresh (fun _ => 0) (fun _ => 0) (fun _ => (1, [0]))
      (fun r _ => if r = Regulator.iovcc then -22 else 0) (fun _ _ => 0) (fun _ => true))
    (-22) rfl (by decide) (by decide) (by decide)
  ⟨h.1, h.2.2.2.2 rfl (by decide)⟩

/-- C3 (counterexample): on a fresh panel with every call succeeding, prepare and
enable both return `0`, yet the trace is not the sequence the scenario lists.
The third call drives the reset line to `0`, the opposite of the value `1` that
`st7703_unprepare` drives; the call after the 197th register write is a 120 ms
delay, not exit-sleep; and the last call is display-on, not tearing-enable. -/
theorem C3_claimed_trace_refuted :
    (st7703_prepare (fresh_ok 1 0x93)).1 = 0 ∧
    (st7703_enable jh057n00900_panel_desc (st7703_prepare (fresh_ok 1 0x93)).2).1 = 0 ∧
    (st7703_enable jh057n00900_panel_desc (st7703_prepare (fresh_ok 1 0x93)).2).2.trace
      ≠ claimed_bringup_trace ∧
    (st7703_enable jh057n00900_panel_desc
      (st7703_prepare (fresh_ok 1 0x93)).2).2.trace.get? 2
      = some (Action.gpiod_set_value 0) ∧
    (st7703_unprepare (st7703_prepare (fresh_ok 1 0x93)).2).2.trace.get? 8
      = some (Action.gpiod_set_value 1) ∧
    (st7703_enable jh057n00900_panel_desc
      (st7703_prepare (fresh_ok 1 0x93)).2).2.trace.get? 205
      = some (Action.msleep 120) ∧
    (st7703_enable jh057n00900_panel_desc
      (st7703_prepare (fresh_ok 1 0x93)).2).2.trace.getLast?
      = some Action.dcs_set_display_on := by
  set_option maxRecDepth 100000 in decide

/-- C3 (amended): on a panel that is not prepared, with both regulator enables,
every generic write and every DCS command succeeding, `st7703_prepare` followed
by `st7703_enable` returns `0` twice, ends prepared, and adds exactly this to
the trace: `vcc` on, `iovcc` on, reset driven to `0`, 5 ms, reset driven to `1`,
10 ms, reset driven to `0`, 130 ms, the 197 register writes, 120 ms, exit-sleep,
120 ms, display-on, 20 ms, tearing-enable, identification reads (DCS reads
only), 20 ms, exit-sleep, 60 ms, display-on. -/
theorem C3_bringup_trace (w : World) (hp : w.prepared = false)
    (hvcc : 0 ≤ w.en Regulator.vcc 0) (hio : 0 ≤ w.en Regulator.iovcc 0)
    (hgw : ∀ k, 0 ≤ w.gw k) (hdcs : ∀ k, w.dcs k = 0) :
    (st7703_prepare w).1 = 0 ∧
    (st7703_enable jh057n00900_panel_desc (st7703_prepare w).2).1 = 0 ∧
    (st7703_enable jh057n00900_panel_desc (st7703_prepare w).2).2.prepared = true ∧
    ∃ reads : List Action, (∀ a ∈ reads, is_dcs_read a = true) ∧
      (st7703_enable jh057n00900_panel_desc (st7703_prepare w).2).2.trace
        = w.trace
          ++ [Action.regulator_enable Regulator.vcc,
              Action.regulator_enable Regulator.iovcc,
              Action.gpiod_set_value 0, Action.msleep 5,
              Action.gpiod_set_value 1, Action.msleep 10,
              Action.gpiod_set_value 0, Action.msleep 130]
          ++ jh057n_all_writes.map Action.generic_write
          ++ [Action.msleep 120, Action.dcs_exit_sleep_mode, Action.msleep 120,
              Action.dcs_set_display_on, Action.msleep 20, Action.dcs_set_tear_on]
          ++ reads
          ++ [Action.msleep 20, Action.dcs_exit_sleep_mode, Action.msleep 60,
              Action.dcs_set_display_on] := by
  obtain ⟨p1, p2, p3, p4, p5⟩ := prepare_ok w hp hvcc hio
  have hgw2 : ∀ i, i < 197 → 0 ≤ (st7703_prepare w).2.gw i := by
    intro i _; rw [p4]; exact hgw i
  have h3 : 0 ≤ (st7703_prepare w).2.dcs 3 := by rw [p5, hdcs 3]
  have h4 : (st7703_prepare w).2.dcs 4 = 0 := by rw [p5, hdcs 4]
  obtain ⟨e1, reads, hr, ht⟩ := enable_ok (st7703_prepare w).2 hgw2 h3 h4
  have hpw := enable_power (st7703_prepare w).2
  have hprep : (st7703_enable jh057n00900_panel_desc (st7703_prepare w).2).2.prepared
      = (st7703_prepare w).2.prepared := congrArg (fun t => t.1) hpw
  refine ⟨p1, e1, by rw [hprep, p3], reads, hr, ?_⟩
  rw [ht, p2]
  rfl

/-- C3 (amended) on a fresh panel with every call succeeding. -/
theorem C3_bringup_trace_witness :
    (st7703_prepare (fresh_ok 1 0x93)).1 = 0 ∧
    (st7703_enable jh057n00900_panel_desc (st7703_prepare (fresh_ok 1 0x93)).2).1 = 0 ∧
    (st7703_enable jh057n00900_panel_desc
      (st7703_prepare (fresh_ok 1 0x93)).2).2.prepared = true :=
  have h := C3_bringup_trace (fresh_ok 1 0x93) rfl (by decide) (by decide)
    (fun _ => le_refl 0) (fun _ => rfl)
  ⟨h.1, h.2.1, h.2.2.1⟩

/-- C4: on a prepared panel `st7703_prepare` returns `0` and changes nothing (no
regulator, GPIO or delay call, same state); a call that returned `0` is followed
by such a no-op call, so two successful calls in a row starting from an
unprepared panel perform the eight power-up calls exactly once. -/
theorem C4_prepare_idempotent (w : World) :
    (w.prepared = true → st7703_prepare w = (0, w)) ∧
    ((st7703_prepare w).1 = 0 →
      st7703_prepare (st7703_prepare w).2 = (0, (st7703_prepare w).2)) ∧
    (w.prepared = false → (st7703_prepare w).1 = 0 →
      (st7703_prepare (st7703_prepare w).2).2.trace
        = w.trace
          ++ [Action.regulator_enable Regulator.vcc,
              Action.regulator_enable Regulator.iovcc,
              Action.gpiod_set_value 0, Action.msleep 5,
              Action.gpiod_set_value 1, Action.msleep 10,
              Action.gpiod_set_value 0, Action.msleep 130]) := by
  refine ⟨prepare_prepared w, ?_, ?_⟩
  · intro h
    exact prepare_prepared _ (prepare_zero_prepared w h)
  · intro hp h
    rw [prepare_prepared _ (prepare_zero_prepared w h)]
    by_cases h1 : w.en Regulator.vcc 0 < 0
    · have : (st7703_prepare w).1 = w.en Regulator.vcc 0 := by
        simp [st7703_prepare, hp, h1]
      omega
    · by_cases h2 : w.en Regulator.iovcc 0 < 0
      · have : (st7703_prepare w).1 = w.en Regulator.iovcc 0 := by
          simp [st7703_prepare, hp, h1, h2, next]
        omega
      · exact (prepare_ok w hp (not_lt.mp h1) (not_lt.mp h2)).2.1

/-- C4 on a fresh panel with every call succeeding: the second call is a no-op
and the trace after two calls is the eight power-up calls. -/
theorem C4_prepare_idempotent_witness :
    st7703_prepare (st7703_prepare (fresh_ok 1 0x93)).2
      = (0, (st7703_prepare (fresh_ok 1 0x93)).2) ∧
    (st7703_prepare (st7703_prepare (fresh_ok 1 0x93)).2).2.trace
      = [] ++ [Action.regulator_enable Regulator.vcc,
              Action.regulator_enable Regulator.iovcc,
              Action.gpiod_set_value 0, Action.msleep 5,
              Action.gpiod_set_value 1, Action.msleep 10,
              Action.gpiod_set_value 0, Action.msleep 130] :=
  ⟨(C4_prepare_idempotent (fresh_ok 1 0x93)).2.1 (by decide),
   (C4_prepare_idempotent (fresh_ok 1 0x93)).2.2 rfl (by decide)⟩

/-- C5: whatever the outcomes of the DCS commands, the GPIO write and the
regulator calls, `st7703_disable` returns `0` after sending display-off and then
enter-sleep, and `st7703_unprepare` returns `0` and ends with `prepared` false;
on a prepared panel it drives reset to `1`, disables `iovcc`, then disables
`vcc`, and on an unprepared panel it makes no call. -/
theorem C5_best_effort_shutdown (w : World) :
    (st7703_disable w).1 = 0 ∧
    (st7703_disable w).2.trace
      = w.trace ++ [Action.dcs_set_display_off, Action.dcs_enter_sleep_mode] ∧
    (st7703_disable w).2.prepared = w.prepared ∧
    (st7703_unprepare w).1 = 0 ∧
    (st7703_unprepare w).2.prepared = false ∧
    (st7703_unprepare w).2.trace
      = w.trace ++ (if w.prepared = true then
          [Action.gpiod_set_value 1, Action.regulator_disable Regulator.iovcc,
           Action.regulator_disable Regulator.vcc] else []) := by
  refine ⟨rfl, ?_, ?_, ?_, ?_, ?_⟩
  · simp only [st7703_disable, mipi_dsi_dcs_set_display_off, mipi_dsi_dcs_enter_sleep_mode]
    split_ifs <;> simp
  · simp only [st7703_disable, mipi_dsi_dcs_set_display_off, mipi_dsi_dcs_enter_sleep_mode]
    split_ifs <;> simp
  · cases hp : w.prepared <;> simp [st7703_unprepare, hp]
  · cases hp : w.prepared <;> simp [st7703_unprepare, hp]
  · cases hp : w.prepared <;> simp [st7703_unprepare, hp]

/-- C6 (the code at the failing input): the `RDDIDIF` read fails and the `ID1`
read succeeds, returning `1` byte read.  `dsi_get_id` takes that non-zero value
for an error: it logs "error reading ID1 register", returns `1`, and never
issues the `ID2` and `ID3` reads. -/
theorem C6_successful_id1_read_taken_as_error :
    (dsi_get_id fresh_rddidif_fault).1 = 1 ∧
    (dsi_get_id fresh_rddidif_fault).2.trace
      = [Action.dcs_read 0x04 3, Action.dcs_read 0xda 1] ∧
    (dsi_get_id fresh_rddidif_fault).2.log
      = [(Level.err, Msg.rddidif_error), (Level.err, Msg.id1_error)] := by
  decide

/-- C7 (counterexample): on a fresh panel, `st7703_prepare` succeeds and then
`st7703_unprepare` runs while disabling `iovcc` fails with `-5`.  The return
value of `regulator_disable` is not looked at: `prepared` becomes false and
`vcc` goes off while `iovcc` stays on, so exactly one supply is on. -/
theorem C7_failed_disable_leaves_one_supply_on :
    (st7703_prepare fresh_iovcc_disable_fault).1 = 0 ∧
    (run_ops [PanelOp.prepare, PanelOp.unprepare] fresh_iovcc_disable_fault).prepared
      = false ∧
    (run_ops [PanelOp.prepare, PanelOp.unprepare] fresh_iovcc_disable_fault).vcc_on
      = false ∧
    (run_ops [PanelOp.prepare, PanelOp.unprepare] fresh_iovcc_disable_fault).iovcc_on
      = true := by
  decide

/-- C7 (amended): starting from `prepared` false with both supplies off, after
every finite sequence of prepare, enable, disable and unprepare calls, under
every pattern of failures of regulator enables, generic writes, DCS commands,
reads and GPIO writes, and with every `regulator_disable` call succeeding, each
supply is on exactly when `prepared` is true. -/
theorem C7_power_matches_prepared (ops : List PanelOp) (w : World)
    (hp : w.prepared = false) (hv : w.vcc_on = false) (hio : w.iovcc_on = false)
    (hd : ∀ r k, 0 ≤ w.dis r k) :
    (run_ops ops w).vcc_on = (run_ops ops w).prepared ∧
    (run_ops ops w).iovcc_on = (run_ops ops w).prepared :=
  (run_ops_keeps ops w ⟨by rw [hv, hp], by rw [hio, hp]⟩ hd).1

/-- C7 (amended) on a fresh panel whose second generic write and whose `iovcc`
enable fail, over a sequence that prepares twice, enables, disables and
unprepares. -/
theorem C7_power_matches_prepared_witness :
    (run_ops [PanelOp.prepare, PanelOp.enable, PanelOp.prepare, PanelOp.disable,
        PanelOp.unprepare]
      (fresh (fun k => if k = 1 then -5 else 0) (fun _ => 0) (fun _ => (1, [0x93]))
        (fun r k => if r = Regulator.iovcc ∧ k = 0 then -22 else 0) (fun _ _ => 0)
        (fun _ => true))).vcc_on
    = (run_ops [PanelOp.prepare, PanelOp.enable, PanelOp.prepare, PanelOp.disable,
        PanelOp.unprepare]
      (fresh (fun k => if k = 1 then -5 else 0) (fun _ => 0) (fun _ => (1, [0x93]))
        (fun r k => if r = Regulator.iovcc ∧ k = 0 then -22 else 0) (fun _ _ => 0)
        (fun _ => true))).prepared :=
  (C7_power_matches_prepared _ _ rfl rfl rfl (fun _ _ => le_refl 0)).1

/-- C8: when the first 49 generic writes of a `st7703_enable` call succeed and
the 50th returns `e < 0`, the call returns `e`; the only hardware calls it made
are the first 50 generic writes of the init sequence (so no exit-sleep,
display-on or tearing-enable command, no regulator call, no GPIO write, no
delay), and `prepared`, both supplies and the reset line are unchanged. -/
theorem C8_fiftieth_write_fails (w : World) (e : Int)
    (hok : ∀ i, i < 49 → 0 ≤ w.gw i) (hf : w.gw 49 = e) (he : e < 0) :
    (st7703_enable jh057n00900_panel_desc w).1 = e ∧
    (st7703_enable jh057n00900_panel_desc w).2.trace
      = w.trace ++ (jh057n_all_writes.take 50).map Action.generic_write ∧
    (∀ a ∈ (jh057n_all_writes.take 50).map Action.generic_write,
      ∃ d, a = Action.generic_write d) ∧
    (st7703_enable jh057n00900_panel_desc w).2.prepared = w.prepared ∧
    (st7703_enable jh057n00900_panel_desc w).2.vcc_on = w.vcc_on ∧
    (st7703_enable jh057n00900_panel_desc w).2.iovcc_on = w.iovcc_on ∧
    (st7703_enable jh057n00900_panel_desc w).2.reset_line = w.reset_line := by
  subst hf
  have hinit := init_sequence_write_fails w 44 (by decide) hok he
  have e0 : jh057n00900_panel_desc.init_sequence w = jh057n_init_sequence w := rfl
  have hen : st7703_enable jh057n00900_panel_desc w
      = (w.gw 49, dev_err (Msg.init_sequence_failed (w.gw 49))
          (after_writes (jh057n_all_writes.take 50) (dev_warn Msg.init_entry w))) := by
    unfold st7703_enable
    rw [e0, hinit]
    simp only []
    rw [if_pos he]
  rw [hen]
  refine ⟨rfl, ?_, ?_, ?_, ?_, ?_, ?_⟩
  · simp
  · intro a ha
    obtain ⟨d, -, hd⟩ := List.mem_map.mp ha
    exact ⟨d, hd.symm⟩
  · simp
  · simp
  · simp
  · simp

/-- C8 on a fresh panel whose 50th generic write returns `-5`. -/
theorem C8_fiftieth_write_fails_witness :
    (st7703_enable jh057n00900_panel_desc (fresh_write_fault 49 (-5))).1 = -5 ∧
    (st7703_enable jh057n00900_panel_desc (fresh_write_fault 49 (-5))).2.trace
      = [] ++ (jh057n_all_writes.take 50).map Action.generic_write :=
  have h := C8_fiftieth_write_fails (fresh_write_fault 49 (-5)) (-5)
    (fun i hi => by
      have hne : i ≠ 49 := by omega
      simp [fresh_write_fault, fresh, hne])
    rfl (by decide)
  ⟨h.1, h.2.1⟩

/-- C9: with every generic write succeeding, replace the read outcomes of a
world by any others.  The init routine still returns `0`, and `st7703_enable`
returns the same value and sends, after the init routine, the same commands as
with the original read outcomes: 20 ms, exit-sleep and, unless exit-sleep itself
failed, 60 ms, display-on. -/
theorem C9_identification_never_gates (w : World) (rd2 : Nat → Int × List Nat)
    (hgw : ∀ k, 0 ≤ w.gw k) :
    (jh057n_init_sequence { w with rd := rd2 }).1 = 0 ∧
    (st7703_enable jh057n00900_panel_desc { w with rd := rd2 }).1
      = (st7703_enable jh057n00900_panel_desc w).1 ∧
    (st7703_enable jh057n00900_panel_desc w).2.trace
      = (jh057n_init_sequence w).2.trace
          ++ (Action.msleep 20 :: Action.dcs_exit_sleep_mode ::
              (if w.dcs 3 < 0 then [] else [Action.msleep 60, Action.dcs_set_display_on])) ∧
    (st7703_enable jh057n00900_panel_desc { w with rd := rd2 }).2.trace
      = (jh057n_init_sequence { w with rd := rd2 }).2.trace
          ++ (Action.msleep 20 :: Action.dcs_exit_sleep_mode ::
              (if w.dcs 3 < 0 then [] else [Action.msleep 60, Action.dcs_set_display_on])) := by
  have key : ∀ v : World, v.gw = w.gw → v.dcs = w.dcs →
      (jh057n_init_sequence v).1 = 0 ∧
      (st7703_enable jh057n00900_panel_desc v).1
        = (if w.dcs 3 < 0 then w.dcs 3 else w.dcs 4) ∧
      (st7703_enable jh057n00900_panel_desc v).2.trace
        = (jh057n_init_sequence v).2.trace
            ++ (Action.msleep 20 :: Action.dcs_exit_sleep_mode ::
                (if w.dcs 3 < 0 then []
                 else [Action.msleep 60, Action.dcs_set_display_on])) := by
    intro v hg hd
    obtain ⟨hret, hdcs, -⟩ := init_sequence_ok v (fun i _ => by rw [hg]; exact hgw i)
    have hn : ¬ (jh057n00900_panel_desc.init_sequence v).1 < 0 := by
      show ¬ (jh057n_init_sequence v).1 < 0
      rw [hret]; decide
    obtain ⟨e1, e2⟩ := enable_after_init jh057n00900_panel_desc v hn
    have hd0 : (jh057n00900_panel_desc.init_sequence v).2.dcs 0 = w.dcs 3 := by
      show (jh057n_init_sequence v).2.dcs 0 = w.dcs 3
      rw [hdcs, hd]
    have hd1 : (jh057n00900_panel_desc.init_sequence v).2.dcs 1 = w.dcs 4 := by
      show (jh057n_init_sequence v).2.dcs 1 = w.dcs 4
      rw [hdcs, hd]
    rw [hd0, hd1] at e1
    rw [hd0] at e2
    exact ⟨hret, e1, e2⟩
  obtain ⟨a1, a2, a3⟩ := key w rfl rfl
  obtain ⟨b1, b2, b3⟩ := key { w with rd := rd2 } rfl rfl
  exact ⟨b1, by rw [b2, a2], a3, b3⟩

/-- C9 on a fresh panel: all four reads failing against all reads succeeding. -/
theorem C9_identification_never_gates_witness :
    (jh057n_init_sequence { fresh_ok 1 0x93 with rd := fun _ => (-5, []) }).1 = 0 ∧
    (st7703_enable jh057n00900_panel_desc
        { fresh_ok 1 0x93 with rd := fun _ => (-5, []) }).1
      = (st7703_enable jh057n00900_panel_desc (fresh_ok 1 0x93)).1 :=
  have h := C9_identification_never_gates (fresh_ok 1 0x93) (fun _ => (-5, []))
    (fun _ => le_refl 0)
  ⟨h.1, h.2.1⟩

/-- C10 (counterexample): on a fresh panel with every call succeeding, prepare
and enable return `0`, and a second enable right after returns `0` too but is no
no-op: it adds 209 hardware calls to the trace, starting with the page-switch
write. -/
theorem C10_second_enable_not_noop :
    (st7703_prepare (fresh_ok 1 0x93)).1 = 0 ∧
    (st7703_enable jh057n00900_panel_desc (st7703_prepare (fresh_ok 1 0x93)).2).1 = 0 ∧
    (st7703_enable jh057n00900_panel_desc
      (st7703_enable jh057n00900_panel_desc
        (st7703_prepare (fresh_ok 1 0x93)).2).2).1 = 0 ∧
    (st7703_enable jh057n00900_panel_desc
      (st7703_enable jh057n00900_panel_desc
        (st7703_prepare (fresh_ok 1 0x93)).2).2).2.trace
      ≠ (st7703_enable jh057n00900_panel_desc
          (st7703_prepare (fresh_ok 1 0x93)).2).2.trace ∧
    (st7703_enable jh057n00900_panel_desc
      (st7703_enable jh057n00900_panel_desc
        (st7703_prepare (fresh_ok 1 0x93)).2).2).2.trace.length
      = (st7703_enable jh057n00900_panel_desc
          (st7703_prepare (fresh_ok 1 0x93)).2).2.trace.length + 209 ∧
    (st7703_enable jh057n00900_panel_desc
      (st7703_enable jh057n00900_panel_desc
        (st7703_prepare (fresh_ok 1 0x93)).2).2).2.trace.get? 217
      = some (Action.generic_write [0xe0, 0x00]) := by
  set_option maxRecDepth 100000 in decide

/-- C10 (amended): `st7703_enable` keeps no record of having run.  In every state
reached by a successful prepare followed by an enable (successful or not), a
second `st7703_enable` whose 197 generic writes and own two DCS commands succeed
returns `0`, leaves `prepared` true and runs the whole sequence again: the 197
register writes, 120 ms, exit-sleep, 120 ms, display-on, 20 ms, tearing-enable,
identification reads, 20 ms, exit-sleep, 60 ms, display-on. -/
theorem C10_second_enable_repeats (w : World)
    (hprep : (st7703_prepare w).1 = 0)
    (hgw : ∀ i, i < 197 →
      0 ≤ (st7703_enable jh057n00900_panel_desc (st7703_prepare w).2).2.gw i)
    (h3 : 0 ≤ (st7703_enable jh057n00900_panel_desc (st7703_prepare w).2).2.dcs 3)
    (h4 : (st7703_enable jh057n00900_panel_desc (st7703_prepare w).2).2.dcs 4 = 0) :
    (st7703_enable jh057n00900_panel_desc
      (st7703_enable jh057n00900_panel_desc (st7703_prepare w).2).2).1 = 0 ∧
    (st7703_enable jh057n00900_panel_desc
      (st7703_enable jh057n00900_panel_desc (st7703_prepare w).2).2).2.prepared = true ∧
    ∃ reads : List Action, (∀ a ∈ reads, is_dcs_read a = true) ∧
      (st7703_enable jh057n00900_panel_desc
        (st7703_enable jh057n00900_panel_desc (st7703_prepare w).2).2).2.trace
        = (st7703_enable jh057n00900_panel_desc (st7703_prepare w).2).2.trace
          ++ jh057n_all_writes.map Action.generic_write
          ++ [Action.msleep 120, Action.dcs_exit_sleep_mode, Action.msleep 120,
              Action.dcs_set_display_on, Action.msleep 20, Action.dcs_set_tear_on]
          ++ reads
          ++ [Action.msleep 20, Action.dcs_exit_sleep_mode, Action.msleep 60,
              Action.dcs_set_display_on] := by
  obtain ⟨e2, reads, hr, ht⟩ := enable_ok _ hgw h3 h4
  have hpw1 := enable_power (st7703_prepare w).2
  have hpw2 := enable_power (st7703_enable jh057n00900_panel_desc (st7703_prepare w).2).2
  have hp : (st7703_enable jh057n00900_panel_desc
      (st7703_enable jh057n00900_panel_desc (st7703_prepare w).2).2).2.prepared
      = (st7703_prepare w).2.prepared :=
    (congrArg (fun t => t.1) hpw2).trans (congrArg (fun t => t.1) hpw1)
  exact ⟨e2, by rw [hp]; exact prepare_zero_prepared w hprep, reads, hr, ht⟩

/-- C10 (amended) on a fresh panel with every call succeeding. -/
theorem C10_second_enable_repeats_witness :
    (st7703_enable jh057n00900_panel_desc
      (st7703_enable jh057n00900_panel_desc
        (st7703_prepare (fresh_ok 1 0x93)).2).2).1 = 0 ∧
    (st7703_enable jh057n00900_panel_desc
      (st7703_enable jh057n00900_panel_desc
        (st7703_prepare (fresh_ok 1 0x93)).2).2).2.prepared = true :=
  have hs := enable_ok_streams (st7703_prepare (fresh_ok 1 0x93)).2
    (fun _ _ => le_refl 0) (le_refl 0) rfl
  have h := C10_second_enable_repeats (fresh_ok 1 0x93) (by decide)
    (fun i _ => by rw [hs.1]; exact le_refl 0)
    (by rw [hs.2]; exact le_refl 0)
    (by rw [hs.2]; rfl)
  ⟨h.1, h.2.1⟩

/-! ## Shutdown -/

/-- Unpreparing always returns `0`. -/
theorem unprepare_ret (w : World) : (st7703_unprepare w).1 = 0 := by
  cases hp : w.prepared <;> simp [st7703_unprepare, hp]

/-- Shutdown is unprepare followed by disable; neither `dev_err` of
`st7703_shutdown` can fire, since both operations return `0`. -/
theorem shutdown_eq (desc : st7703_panel_desc) (w : World) :
    st7703_shutdown desc w = (st7703_disable (st7703_unprepare w).2).2 := by
  have hu : ¬ (st7703_unprepare w).1 < 0 := by rw [unprepare_ret]; decide
  have hd : ¬ (st7703_disable (st7703_unprepare w).2).1 < 0 := by
    show ¬ (0 : Int) < 0
    decide
  simp only [st7703_shutdown, drm_panel_unprepare, drm_panel_disable, st7703_drm_funcs]
  rw [if_neg hu, if_neg hd]

/-- The trace of a disable call, whatever its two commands return. -/
theorem disable_trace (w : World) :
    (st7703_disable w).2.trace
      = w.trace ++ [Action.dcs_set_display_off, Action.dcs_enter_sleep_mode] := by
  simp only [st7703_disable, mipi_dsi_dcs_set_display_off, mipi_dsi_dcs_enter_sleep_mode]
  split_ifs <;> simp

/-- The trace and flag after unpreparing a prepared panel. -/
theorem unprepare_prepared (w : World) (hp : w.prepared = true) :
    (st7703_unprepare w).2.trace
      = w.trace ++ [Action.gpiod_set_value 1, Action.regulator_disable Regulator.iovcc,
          Action.regulator_disable Regulator.vcc] ∧
    (st7703_unprepare w).2.prepared = false := by
  constructor <;> simp [st7703_unprepare, hp]

/-- C11: on a prepared panel `st7703_shutdown` is `st7703_unprepare` followed by
`st7703_disable`.  The unprepare step drives reset to `1`, disables `iovcc`,
disables `vcc` and clears `prepared`; only then are display-off and enter-sleep
sent.  So the calls of a shutdown are exactly these five in this order, and in
no initial part of them does a DSI command appear without both
`regulator_disable` calls before it. -/
theorem C11_shutdown_unprepares_then_disables (w : World) (hp : w.prepared = true) :
    st7703_shutdown jh057n00900_panel_desc w
      = (st7703_disable (st7703_unprepare w).2).2 ∧
    (st7703_unprepare w).2.trace
      = w.trace ++ [Action.gpiod_set_value 1, Action.regulator_disable Regulator.iovcc,
          Action.regulator_disable Regulator.vcc] ∧
    (st7703_unprepare w).2.prepared = false ∧
    (st7703_shutdown jh057n00900_panel_desc w).trace
      = w.trace ++ [Action.gpiod_set_value 1, Action.regulator_disable Regulator.iovcc,
          Action.regulator_disable Regulator.vcc, Action.dcs_set_display_off,
          Action.dcs_enter_sleep_mode] ∧
    (st7703_shutdown jh057n00900_panel_desc w).prepared = false ∧
    (∀ n : Nat,
      (∃ a ∈ ((st7703_shutdown jh057n00900_panel_desc w).trace.drop w.trace.length).take n,
        is_dsi_command a = true) →
      Action.regulator_disable Regulator.iovcc
        ∈ ((st7703_shutdown jh057n00900_panel_desc w).trace.drop w.trace.length).take n ∧
      Action.regulator_disable Regulator.vcc
        ∈ ((st7703_shutdown jh057n00900_panel_desc w).trace.drop w.trace.length).take n) := by
  obtain ⟨hut, hup⟩ := unprepare_prepared w hp
  have hs := shutdown_eq jh057n00900_panel_desc w
  have ht : (st7703_shutdown jh057n00900_panel_desc w).trace
      = w.trace ++ [Action.gpiod_set_value 1, Action.regulator_disable Regulator.iovcc,
          Action.regulator_disable Regulator.vcc, Action.dcs_set_display_off,
          Action.dcs_enter_sleep_mode] := by
    rw [hs, disable_trace, hut]
    simp
  have hprep : (st7703_shutdown jh057n00900_panel_desc w).prepared = false := by
    rw [hs]
    have := disable_power (st7703_unprepare w).2
    have h2 : (st7703_disable (st7703_unprepare w).2).2.prepared
        = (st7703_unprepare w).2.prepared := congrArg (fun t => t.1) this
    rw [h2, hup]
  refine ⟨hs, hut, hup, ht, hprep, ?_⟩
  intro n
  rw [ht, List.drop_left]
  rcases n with _ | _ | _ | _ | _ | n <;> simp [is_dsi_command]

/-- C11 on a panel that has just been prepared with every call succeeding. -/
theorem C11_shutdown_unprepares_then_disables_witness :
    (st7703_prepare (fresh_ok 1 0x93)).2.prepared = true ∧
    (st7703_shutdown jh057n00900_panel_desc (st7703_prepare (fresh_ok 1 0x93)).2).trace
      = (st7703_prepare (fresh_ok 1 0x93)).2.trace
        ++ [Action.gpiod_set_value 1, Action.regulator_disable Regulator.iovcc,
          Action.regulator_disable Regulator.vcc, Action.dcs_set_display_off,
          Action.dcs_enter_sleep_mode] ∧
    (st7703_shutdown jh057n00900_panel_desc
      (st7703_prepare (fresh_ok 1 0x93)).2).prepared = false :=
  have h := C11_shutdown_unprepares_then_disables (st7703_prepare (fresh_ok 1 0x93)).2
    (by decide)
  ⟨by decide, h.2.2.2.1, h.2.2.2.2.1⟩

end ST7703
